import Mathlib

/-!
Verification of the Grin wallet C-ABI glue layer (src/rust/src/lib.rs).

The file shallowly embeds the Rust source. Each exported operation in the
source is a short sequence of calls into the external grin_wallet crate,
chained with the `?` operator. The embedding keeps the source's names and
control structure: each external call's outcome is an explicit
`Except Err _` input, and every operation additionally reports a trace of
which external calls it performed, in order, so temporal properties
(lock-before-send, no post after failed finalize) are provable.
-/

namespace GrinWallet

/-- Error kinds from the spec's taxonomy (section 7). The concrete
`grin_wallet::Error` lives in the external crate; only the kind matters
for the properties proved here, so it is an inductive with one
constructor per kind plus a catch-all carrying a message. -/
inductive Err
  | insufficientFunds
  | nodeUnreachable
  | rejectedByNode
  | invalidSlate
  | incompleteSlate
  | alreadyConfirmed
  | notFound
  | ioError
  | other (msg : String)
deriving DecidableEq, Repr

/-- External calls an operation can perform, used as trace events.
Each constructor names the grin_wallet API invoked by the Rust source. -/
inductive Ev
  | getWallet
  | initiateTx
  | sendTxSync
  | lockOutputs
  | verifySlate
  | finalizeTx
  | postTx
  | readSlate
  | receiveTx
deriving DecidableEq, Repr

/-- Position of the first occurrence of an event in a trace (length of the
trace when absent); used to state ordering of calls. -/
def idxIn (a : Ev) : List Ev → Nat
  | [] => 0
  | b :: l => if a = b then 0 else idxIn a l + 1

/- ### Chain type and wallet configuration, lib.rs lines 45-68 -/

/-- grin_core::global::ChainTypes, restricted to the variants the source
mentions. -/
inductive ChainTypes
  | Floonet
  | UserTesting
  | Mainnet
deriving DecidableEq, Repr

/-- grin WalletConfig, fields as constructed by get_wallet_config. -/
structure WalletConfig where
  chain_type : Option ChainTypes
  api_listen_interface : String
  api_listen_port : Nat
  api_secret_path : Option String
  node_api_secret_path : Option String
  check_node_api_http_addr : String
  data_file_dir : String
  tls_certificate_file : Option String
  tls_certificate_key : Option String
  dark_background_color_scheme : Option Bool
  keybase_notify_ttl : Option Nat
  no_commit_cache : Option Bool
  owner_api_include_foreign : Option Bool
  owner_api_listen_port : Option Nat
deriving DecidableEq, Repr

/-- WalletConfig::default_owner_api_listen_port from the external grin
crate (a constant). -/
def WalletConfig.default_owner_api_listen_port : Nat := 13420

/-- get_wallet_config, lib.rs lines 45-68. The Rust `match` on the
chain-type string with a `_ => ChainTypes::Mainnet` arm is rendered as an
if-chain with the same catch-all. -/
def get_wallet_config (wallet_dir chain_type check_node_api_http_addr : String) :
    WalletConfig :=
  let chain_type_config :=
    if chain_type = "floonet" then ChainTypes.Floonet
    else if chain_type = "usernet" then ChainTypes.UserTesting
    else if chain_type = "mainnet" then ChainTypes.Mainnet
    else ChainTypes.Mainnet
  ⟨some chain_type_config,
   "127.0.0.1",
   13415,
   some ".api_secret",
   some (wallet_dir ++ "/.api_secret"),
   check_node_api_http_addr,
   wallet_dir ++ "/wallet_data",
   none,
   none,
   some true,
   some 1,
   none,
   none,
   some WalletConfig.default_owner_api_listen_port⟩

/- ### cstr_free, lib.rs lines 37-43 -/

/-- Memory actions observable from cstr_free: reclaiming the CString that
owns the given raw pointer. -/
inductive MemAction
  | free (ptr : Nat)
deriving DecidableEq, Repr

/-- cstr_free, lib.rs lines 37-43. Raw pointers are modelled as naturals
with 0 as the null pointer (`s.is_null()`). The result is the list of
memory actions performed: the early return on null performs none,
otherwise `CString::from_raw` reclaims the allocation. -/
def cstr_free (s : Nat) : List MemAction :=
  if s = 0 then [] else [MemAction.free s]

/- ### unwrap_to_c, lib.rs lines 88-101 -/

/-- serde_json::to_string of a Rust String: the text wrapped in quotes
(escaping of special characters is not relevant to any claim and is
omitted). -/
def jsonString (s : String) : String := "\"" ++ s ++ "\""

/-- unwrap_to_c, lib.rs lines 88-101. `display` stands for the external
error type's Display rendering (`format!("\x7b\x7d", e)`). The returned
pair is (the byte written through the `error` out-pointer, the string
returned through the C ABI). On success the flag is 0 and the payload is
returned verbatim; on failure the flag is 1 and the JSON-encoded message
is returned. -/
def unwrap_to_c (display : Err → String) (r : Except Err String) : Nat × String :=
  match r with
  | .ok res => (0, res)
  | .error e => (1, jsonString (display e))

/-- Representative Display rendering for the external error type, used
only to instantiate `display` at concrete inputs; no proof depends on the
message text. -/
def errText : Err → String
  | .insufficientFunds => "Not enough funds"
  | .nodeUnreachable => "Node not available"
  | .rejectedByNode => "Transaction rejected"
  | .invalidSlate => "Invalid slate"
  | .incompleteSlate => "Slate incomplete"
  | .alreadyConfirmed => "Transaction already confirmed"
  | .notFound => "Not found"
  | .ioError => "I/O error"
  | .other msg => msg

/- ### tx_strategies, lib.rs lines 330-359 -/

/-- Strategy, lib.rs lines 323-328. -/
structure Strategy where
  selection_strategy_is_use_all : Bool
  total : Nat
  fee : Nat
deriving DecidableEq, Repr

/-- tx_strategies, lib.rs lines 330-359. `openWallet` is the outcome of
`get_wallet(..)?`; `estSmallest` and `estAll` are the outcomes of the two
`estimate_initiate_tx` calls (use_all = false, then true), each returning
a (total, fee) pair. The source pushes the smallest-selection estimate
only `if let Ok(..)`, then matches on the use-all estimate: on Ok it
returns the serialized vector, on Err it returns that error. The JSON
serialization is abstracted away: the list itself is returned. -/
def tx_strategies (openWallet : Except Err Unit)
    (estSmallest estAll : Except Err (Nat × Nat)) : Except Err (List Strategy) :=
  match openWallet with
  | .error e => .error e
  | .ok _ =>
    let result : List Strategy :=
      match estSmallest with
      | .ok smallest => [⟨false, smallest.1, smallest.2⟩]
      | .error _ => []
    match estAll with
    | .ok all => .ok (result ++ [⟨true, all.1, all.2⟩])
    | .error e => .error e

/- ### tx_create, lib.rs lines 384-406, and tx_send, lib.rs lines 556-584 -/

/-- Outcomes of the external calls tx_create performs, in source order:
`get_wallet(..)?`, `api.initiate_tx(..)?`, `api.tx_lock_outputs(..)?`. -/
structure CreateCalls where
  openWallet : Except Err Unit
  initiate : Except Err Unit
  lock : Except Err Unit

/-- tx_create, lib.rs lines 384-406: initiate_tx then tx_lock_outputs,
then return the serialized slate (abstracted to Unit). Besides the
result, the trace of external calls made (in order) is returned. -/
def tx_create (c : CreateCalls) : Except Err Unit × List Ev :=
  match c.openWallet with
  | .error e => (.error e, [.getWallet])
  | .ok _ =>
    match c.initiate with
    | .error e => (.error e, [.getWallet, .initiateTx])
    | .ok _ =>
      match c.lock with
      | .error e => (.error e, [.getWallet, .initiateTx, .lockOutputs])
      | .ok _ => (.ok (), [.getWallet, .initiateTx, .lockOutputs])

/-- Outcomes of the external calls tx_send performs, in source order:
`get_wallet(..)?`, `api.initiate_tx(..)?`, `adapter.send_tx_sync(dest, &slate)?`,
`api.tx_lock_outputs(..)?`, `api.verify_slate_messages(..)?`,
`api.finalize_tx(..)?`, `api.post_tx(..)?`. -/
structure SendCalls where
  openWallet : Except Err Unit
  initiate : Except Err Unit
  send : Except Err Unit
  lock : Except Err Unit
  verify : Except Err Unit
  finalize : Except Err Unit
  post : Except Err Unit

/-- tx_send, lib.rs lines 556-584. The slate values threaded between the
calls are abstracted; what is kept is the order of the calls and the `?`
short-circuiting: each call happens only if every earlier call succeeded,
and the first error is returned. Note the source sends to the
destination (send_tx_sync) before calling tx_lock_outputs. -/
def tx_send (c : SendCalls) : Except Err Unit × List Ev :=
  match c.openWallet with
  | .error e => (.error e, [.getWallet])
  | .ok _ =>
    match c.initiate with
    | .error e => (.error e, [.getWallet, .initiateTx])
    | .ok _ =>
      match c.send with
      | .error e => (.error e, [.getWallet, .initiateTx, .sendTxSync])
      | .ok _ =>
        match c.lock with
        | .error e => (.error e, [.getWallet, .initiateTx, .sendTxSync, .lockOutputs])
        | .ok _ =>
          match c.verify with
          | .error e =>
            (.error e, [.getWallet, .initiateTx, .sendTxSync, .lockOutputs, .verifySlate])
          | .ok _ =>
            match c.finalize with
            | .error e =>
              (.error e,
               [.getWallet, .initiateTx, .sendTxSync, .lockOutputs, .verifySlate, .finalizeTx])
            | .ok _ =>
              match c.post with
              | .error e =>
                (.error e,
                 [.getWallet, .initiateTx, .sendTxSync, .lockOutputs, .verifySlate,
                  .finalizeTx, .postTx])
              | .ok _ =>
                (.ok (),
                 [.getWallet, .initiateTx, .sendTxSync, .lockOutputs, .verifySlate,
                  .finalizeTx, .postTx])

/- ### tx_receive, lib.rs lines 472-488 -/

/-- Outcomes of the external calls tx_receive performs, in source order:
`get_wallet(..)?`, `adapter.receive_tx_async(&slate_path)?`,
`api.verify_slate_messages(&slate)?`, `api.receive_tx(..)?` (the only
call that mutates wallet state or the slate). -/
structure ReceiveCalls where
  openWallet : Except Err Unit
  readSlate : Except Err Unit
  verify : Except Err Unit
  receive : Except Err Unit

/-- tx_receive, lib.rs lines 472-488: read the slate file, verify the
slate-embedded messages, and only then call receive_tx, which adds the
receiver's contribution. -/
def tx_receive (c : ReceiveCalls) : Except Err Unit × List Ev :=
  match c.openWallet with
  | .error e => (.error e, [.getWallet])
  | .ok _ =>
    match c.readSlate with
    | .error e => (.error e, [.getWallet, .readSlate])
    | .ok _ =>
      match c.verify with
      | .error e => (.error e, [.getWallet, .readSlate, .verifySlate])
      | .ok _ =>
        match c.receive with
        | .error e => (.error e, [.getWallet, .readSlate, .verifySlate, .receiveTx])
        | .ok _ => (.ok (), [.getWallet, .readSlate, .verifySlate, .receiveTx])

/- ### tx_finalize, lib.rs lines 515-531 -/

/-- Outcomes of the external calls tx_finalize performs, in source order:
`get_wallet(..)?`, `adapter.receive_tx_async(&slate_path)?`,
`api.verify_slate_messages(&slate)?`, `api.finalize_tx(&mut slate)?`,
`api.post_tx(&slate.tx, true)?`. -/
structure FinalizeCalls where
  openWallet : Except Err Unit
  readSlate : Except Err Unit
  verify : Except Err Unit
  finalize : Except Err Unit
  post : Except Err Unit

/-- tx_finalize, lib.rs lines 515-531: read the slate file, verify
messages, finalize, and only then post to the node. Each `?` propagates
the first failure, so post_tx runs only after finalize_tx succeeded. -/
def tx_finalize (c : FinalizeCalls) : Except Err Unit × List Ev :=
  match c.openWallet with
  | .error e => (.error e, [.getWallet])
  | .ok _ =>
    match c.readSlate with
    | .error e => (.error e, [.getWallet, .readSlate])
    | .ok _ =>
      match c.verify with
      | .error e => (.error e, [.getWallet, .readSlate, .verifySlate])
      | .ok _ =>
        match c.finalize with
        | .error e => (.error e, [.getWallet, .readSlate, .verifySlate, .finalizeTx])
        | .ok _ =>
          match c.post with
          | .error e =>
            (.error e, [.getWallet, .readSlate, .verifySlate, .finalizeTx, .postTx])
          | .ok _ =>
            (.ok (), [.getWallet, .readSlate, .verifySlate, .finalizeTx, .postTx])

/- ### wallet_init, lib.rs lines 70-86, C entry grin_wallet_init lines 103-120 -/

/-- Outcomes of the external calls wallet_init performs:
`WalletSeed::init_file(&config, 16, None, &password)?` (taking the
config, the requested seed length and the password),
`LMDBBackend::new(..)?`, and `seed.to_mnemonic()`. The seed is modelled
as an opaque String. -/
structure InitCalls where
  initFile : WalletConfig → Nat → String → Except Err String
  backendNew : Except Err Unit
  toMnemonic : String → Except Err String

/-- wallet_init, lib.rs lines 70-86. Its inputs are exactly the four
strings the C entry point grin_wallet_init (lines 103-120) passes
through: path, chain_type, password, check_node_api_http_addr — there is
no word-count input anywhere in the signature. The seed length passed to
WalletSeed::init_file is the literal 16; the second component of the
result records the lengths requested from init_file. -/
def wallet_init (path chain_type password check_node_api_http_addr : String)
    (c : InitCalls) : Except Err String × List Nat :=
  let wallet_config := get_wallet_config path chain_type check_node_api_http_addr
  let res : Except Err String :=
    match c.initFile wallet_config 16 password with
    | .error e => .error e
    | .ok seed =>
      match c.backendNew with
      | .error e => .error e
      | .ok _ => c.toMnemonic seed
  (res, [16])

/- ### tx_repost, lib.rs lines 615-635 -/

/-- One row of the transaction log as tx_repost consumes it: the id it
is filtered by, the confirmed flag the source tests, and the stored
transaction returned by `api.get_stored_tx(&txs[0])` (None when no
transaction is stored for the entry). Stored transactions are opaque. -/
structure RepostEntry where
  id : Nat
  confirmed : Bool
  storedTx : Option Nat
deriving DecidableEq, Repr

/-- Observable outcome of tx_repost: normal success, a propagated error,
or the Rust panic raised by indexing `txs[0]` when the filtered vector is
empty (out-of-bounds indexing aborts; it is neither Ok nor Err). -/
inductive RepostOutcome
  | ok
  | err (e : Err)
  | panicIndex
deriving DecidableEq, Repr

/-- tx_repost, lib.rs lines 615-635. `retrieve_txs(true, Some(tx_id), None)`
returns the log entries whose id matches tx_id (the external
updater::retrieve_txs filters the log; a missing id yields an empty
vector, not an error). The source then evaluates `txs[0]` with no
emptiness check — on an empty vector this panics, modelled by
`RepostOutcome.panicIndex`. Otherwise: a missing stored transaction and a
confirmed entry each return success silently, and only then is the
transaction posted. The Bool reports whether post_tx was invoked. -/
def tx_repost (openWallet : Except Err Unit) (postResult : Except Err Unit)
    (log : List RepostEntry) (tx_id : Nat) : RepostOutcome × Bool :=
  match openWallet with
  | .error e => (.err e, false)
  | .ok _ =>
    let txs := log.filter (fun t => t.id == tx_id)
    match txs.head? with
    | none => (.panicIndex, false)
    | some t0 =>
      match t0.storedTx with
      | none => (.ok, false)
      | some _ =>
        if t0.confirmed then (.ok, false)
        else
          match postResult with
          | .ok _ => (.ok, true)
          | .error e => (.err e, true)

/- ### tx_cancel, lib.rs lines 435-447, over a spec-modelled cancel_tx -/

/-- Output status from the spec's data model (section 3, OutputData). -/
inductive OutputStatus
  | unspent
  | unconfirmed
  | locked
  | spent
  | cancelledStatus
deriving DecidableEq, Repr

/-- One owned output: identifier and status (spec section 3,
OutputData; commitment/value/derivation index play no role in cancel). -/
structure OutputData where
  id : Nat
  status : OutputStatus
deriving DecidableEq, Repr

/-- One transaction log row as cancel consumes it: id, confirmation
flag, cancellation flag, and the ids of the outputs it references (spec
section 3, TxLogEntry). -/
structure TxLogEntry where
  id : Nat
  confirmed : Bool
  cancelled : Bool
  outputs : List Nat
deriving DecidableEq, Repr

/-- Wallet store state visible to cancel: the transaction log and the
output store. -/
structure WState where
  txs : List TxLogEntry
  outs : List OutputData
deriving DecidableEq, Repr

/-- Marking a log entry cancelled (identity, flags and outputs kept). -/
def cancelEntry (e : TxLogEntry) : TxLogEntry :=
  ⟨e.id, e.confirmed, true, e.outputs⟩

/-- Releasing one output against the cancelled entry's output set:
Locked outputs referenced by the entry revert to Unspent, everything
else is untouched (spec section 4.2, release). -/
def releaseOut (ids : List Nat) (o : OutputData) : OutputData :=
  if o.id ∈ ids ∧ o.status = OutputStatus.locked then ⟨o.id, OutputStatus.unspent⟩ else o

/-- Modelled from the spec: `APIOwner::cancel_tx`, the call tx_cancel
forwards to, is implemented in the external grin_wallet crate and is not
under src/; src/ holds only its caller. Spec section 4.4: cancel "fails
with AlreadyConfirmed if the TxLogEntry is confirmed; otherwise releases
its Locked outputs and marks it Cancelled. Idempotent: cancelling an
already-Cancelled entry is a no-op, not an error", and section 4.6 gives
`get(tx_id)` failing with NotFound for an unknown id. -/
def cancel_tx (st : WState) (tx_id : Nat) : Except Err WState :=
  match st.txs.find? (fun e => e.id == tx_id) with
  | none => .error .notFound
  | some e =>
    if e.confirmed then .error .alreadyConfirmed
    else if e.cancelled then .ok st
    else
      .ok ⟨st.txs.map (fun e2 => if e2.id == tx_id then cancelEntry e2 else e2),
           st.outs.map (releaseOut e.outputs)⟩

/-- tx_cancel, lib.rs lines 435-447: open the wallet, forward to
cancel_tx, and return the empty string on success. The resulting store
state is returned alongside so state change is observable. -/
def tx_cancel (openWallet : Except Err Unit) (st : WState) (id : Nat) :
    Except Err (String × WState) :=
  match openWallet with
  | .error e => .error e
  | .ok _ =>
    match cancel_tx st id with
    | .error e => .error e
    | .ok st2 => .ok ("", st2)

/-! ## Theorems -/

/-- C10: calling the exported deallocation function cstr_free with a null
pointer is a safe no-op — it returns immediately performing no memory
action at all. -/
theorem cstr_free_null_noop : cstr_free 0 = [] := rfl

/-- C9: for every chain_type string other than "floonet" and "usernet"
(in particular "mainnet", the empty string, and any unrecognized
selector), get_wallet_config selects the Mainnet chain type; the spelling
accepted for the user-testing network is "usernet", which selects
UserTesting. -/
theorem get_wallet_config_chain_fallback (wallet_dir addr s : String)
    (h1 : s ≠ "floonet") (h2 : s ≠ "usernet") :
    (get_wallet_config wallet_dir s addr).chain_type = some ChainTypes.Mainnet ∧
    (get_wallet_config wallet_dir "usernet" addr).chain_type = some ChainTypes.UserTesting := by
  constructor
  · by_cases h3 : s = "mainnet" <;> simp [get_wallet_config, h1, h2, h3]
  · simp [get_wallet_config]

/-- C9 witness: the empty selector is treated as mainnet, and "usernet"
selects the user-testing chain. -/
theorem get_wallet_config_chain_fallback_witness :
    (get_wallet_config "wallet" "" "addr").chain_type = some ChainTypes.Mainnet ∧
    (get_wallet_config "wallet" "usernet" "addr").chain_type = some ChainTypes.UserTesting :=
  get_wallet_config_chain_fallback "wallet" "addr" "" (by decide) (by decide)

/-- C8 counterexample: the only non-string datum unwrap_to_c hands to the
caller is the error byte, and it is 1 for every failure — identical for
InsufficientFunds and NodeUnreachable — so no function of the non-string
output can recover the failure category: the caller cannot branch on the
category without parsing string content. -/
theorem unwrap_to_c_kind_not_recoverable :
    (unwrap_to_c errText (Except.error Err.insufficientFunds)).1
      = (unwrap_to_c errText (Except.error Err.nodeUnreachable)).1 ∧
    ¬ ∃ f : Nat → Err, ∀ e : Err, f (unwrap_to_c errText (Except.error e)).1 = e := by
  refine ⟨rfl, ?_⟩
  rintro ⟨f, hf⟩
  have h1 := hf Err.insufficientFunds
  have h2 := hf Err.nodeUnreachable
  rw [show (unwrap_to_c errText (Except.error Err.insufficientFunds)).1 = 1 from rfl] at h1
  rw [show (unwrap_to_c errText (Except.error Err.nodeUnreachable)).1 = 1 from rfl] at h2
  exact absurd (h1.symm.trans h2) (by decide)

/-- C8 amended: the encoding preserves success-versus-failure distinctly
from the payload — the error byte is 0 with the payload verbatim on
success and 1 with the JSON-encoded display message on failure — but the
failure category itself is carried only inside that message string. -/
theorem unwrap_to_c_flag_spec (display : Err → String) (s : String) (e : Err) :
    unwrap_to_c display (Except.ok s) = (0, s) ∧
    unwrap_to_c display (Except.error e) = (1, jsonString (display e)) ∧
    (unwrap_to_c display (Except.ok s)).1 ≠ (unwrap_to_c display (Except.error e)).1 := by
  refine ⟨rfl, rfl, ?_⟩
  simp [unwrap_to_c]

/-- C8 amended witness: at a concrete payload and error the flags are 0
and 1 and differ. -/
theorem unwrap_to_c_flag_spec_witness :
    unwrap_to_c errText (Except.ok "payload") = (0, "payload") ∧
    unwrap_to_c errText (Except.error Err.notFound) = (1, jsonString (errText Err.notFound)) ∧
    (unwrap_to_c errText (Except.ok "payload")).1
      ≠ (unwrap_to_c errText (Except.error Err.notFound)).1 :=
  unwrap_to_c_flag_spec errText "payload" Err.notFound

/-- Concrete external-call outcomes for wallet_init: the generator
returns a fixed seed for any requested length, so any dependence of the
result on a word count could only come from the caller's arguments. -/
def initCallsA : InitCalls :=
  ⟨fun _ _ _ => .ok "seedbytes", .ok (), fun _ => .ok "river lobster tonight"⟩

/-- C6 counterexample: wallet_init has no word-count input — its inputs
are exactly path, chain type, password and node address — and two runs
with entirely different caller-supplied arguments both request seed
length 16 from WalletSeed::init_file and return the same mnemonic, so
the mnemonic does not vary with any caller-supplied word count. -/
theorem wallet_init_word_count_cx :
    wallet_init "w1" "floonet" "pw1" "n1" initCallsA
      = (Except.ok "river lobster tonight", [16]) ∧
    wallet_init "w2" "mainnet" "pw2" "n2" initCallsA
      = (Except.ok "river lobster tonight", [16]) := ⟨rfl, rfl⟩

/-- C6 amended: init takes no word-count input; wallet_init always
passes the fixed literal 16 as the seed length to WalletSeed::init_file,
whatever the caller supplies for its four string inputs and whatever the
external calls return. -/
theorem wallet_init_fixed_seed_length
    (path chain_type password addr : String) (c : InitCalls) :
    (wallet_init path chain_type password addr c).2 = [16] := rfl

/-- C2: the code evaluates `txs[0]` on the vector of log entries matching
the requested id without checking emptiness. With no entry for id 5 the
filtered vector is empty and the indexing panics instead of returning
success; an entry that is confirmed, or one with no stored transaction,
does return success with no post. -/
theorem tx_repost_missing_id_panics :
    tx_repost (Except.ok ()) (Except.ok ()) [] 5
      = (RepostOutcome.panicIndex, false) ∧
    tx_repost (Except.ok ()) (Except.ok ()) [RepostEntry.mk 7 false (some 1)] 5
      = (RepostOutcome.panicIndex, false) ∧
    tx_repost (Except.ok ()) (Except.ok ()) [RepostEntry.mk 5 true (some 1)] 5
      = (RepostOutcome.ok, false) ∧
    tx_repost (Except.ok ()) (Except.ok ()) [RepostEntry.mk 5 false none] 5
      = (RepostOutcome.ok, false) := by
  refine ⟨rfl, rfl, rfl, rfl⟩

/-- C3: once the wallet is open, tx_strategies fails exactly when the
use-all estimate fails, and with that same error; every successful result
is a list of at most two strategies ending in the use-all estimate,
preceded by the smallest-selection estimate exactly when that estimate
succeeded (its failure is silently omitted). -/
theorem tx_strategies_shape (o : Except Err Unit) (estSmallest estAll : Except Err (Nat × Nat))
    (ho : o = Except.ok ()) :
    (∀ e, tx_strategies o estSmallest estAll = Except.error e ↔ estAll = Except.error e) ∧
    (∀ l, tx_strategies o estSmallest estAll = Except.ok l →
      l.length ≤ 2 ∧
      (∃ a pre, estAll = Except.ok a ∧ l = pre ++ [Strategy.mk true a.1 a.2] ∧
        ((∃ s, estSmallest = Except.ok s ∧ pre = [Strategy.mk false s.1 s.2]) ∨
         (pre = [] ∧ ∀ s, estSmallest ≠ Except.ok s)))) := by
  subst ho
  rcases estSmallest with eS | vS <;> rcases estAll with eA | vA
  · exact ⟨fun e => by simp [tx_strategies], fun l hl => by simp [tx_strategies] at hl⟩
  · refine ⟨fun e => by simp [tx_strategies], fun l hl => ?_⟩
    simp only [tx_strategies, Except.ok.injEq] at hl
    subst hl
    exact ⟨by simp, vA, [], rfl, by simp, Or.inr ⟨rfl, by simp⟩⟩
  · exact ⟨fun e => by simp [tx_strategies], fun l hl => by simp [tx_strategies] at hl⟩
  · refine ⟨fun e => by simp [tx_strategies], fun l hl => ?_⟩
    simp only [tx_strategies, Except.ok.injEq] at hl
    subst hl
    exact ⟨by simp, vA, [Strategy.mk false vS.1 vS.2], rfl, by simp,
      Or.inl ⟨vS, rfl, rfl⟩⟩

/-- C3 witness: with both estimates feasible the result is the two-entry
list, smallest first, use-all last. -/
theorem tx_strategies_shape_witness :
    ([Strategy.mk false 5 1, Strategy.mk true 10 2] : List Strategy).length ≤ 2 ∧
    (∃ a pre, (Except.ok (10, 2) : Except Err (Nat × Nat)) = Except.ok a ∧
      ([Strategy.mk false 5 1, Strategy.mk true 10 2] : List Strategy)
        = pre ++ [Strategy.mk true a.1 a.2] ∧
      ((∃ s, (Except.ok (5, 1) : Except Err (Nat × Nat)) = Except.ok s ∧
          pre = [Strategy.mk false s.1 s.2]) ∨
       (pre = [] ∧ ∀ s, (Except.ok (5, 1) : Except Err (Nat × Nat)) ≠ Except.ok s))) :=
  (tx_strategies_shape (Except.ok ()) (Except.ok (5, 1)) (Except.ok (10, 2)) rfl).2
    [Strategy.mk false 5 1, Strategy.mk true 10 2] rfl

/-- C4: when execution reaches finalize_tx and it fails — in particular
with IncompleteSlate on a slate missing the counterparty's contribution —
tx_finalize returns that very error and post_tx is never invoked; and in
every run whatsoever, post_tx is invoked only if finalize_tx succeeded. -/
theorem tx_finalize_incomplete_no_post (c : FinalizeCalls) :
    (∀ e, c.openWallet = Except.ok () → c.readSlate = Except.ok () →
      c.verify = Except.ok () → c.finalize = Except.error e →
      (tx_finalize c).1 = Except.error e ∧ Ev.postTx ∉ (tx_finalize c).2) ∧
    (Ev.postTx ∈ (tx_finalize c).2 → c.finalize = Except.ok ()) := by
  constructor
  · intro e h1 h2 h3 h4
    simp [tx_finalize, h1, h2, h3, h4]
  · intro hmem
    rcases h1 : c.openWallet with e1 | u1
    · simp [tx_finalize, h1] at hmem
    · rcases h2 : c.readSlate with e2 | u2
      · simp [tx_finalize, h1, h2] at hmem
      · rcases h3 : c.verify with e3 | u3
        · simp [tx_finalize, h1, h2, h3] at hmem
        · rcases h4 : c.finalize with e4 | u4
          · simp [tx_finalize, h1, h2, h3, h4] at hmem
          · cases u4; rfl

/-- C4 witness: a run whose finalize step reports IncompleteSlate
returns IncompleteSlate and never posts. -/
theorem tx_finalize_incomplete_no_post_witness :
    (tx_finalize ⟨Except.ok (), Except.ok (), Except.ok (),
        Except.error Err.incompleteSlate, Except.ok ()⟩).1
      = Except.error Err.incompleteSlate ∧
    Ev.postTx ∉ (tx_finalize ⟨Except.ok (), Except.ok (), Except.ok (),
        Except.error Err.incompleteSlate, Except.ok ()⟩).2 :=
  (tx_finalize_incomplete_no_post
      ⟨Except.ok (), Except.ok (), Except.ok (), Except.error Err.incompleteSlate,
       Except.ok ()⟩).1
    Err.incompleteSlate rfl rfl rfl rfl

/-- C5: when the slate has been read and message verification fails,
tx_receive returns that verification error (InvalidSlate) and receive_tx
— the only call adding the receiver's contribution and mutating wallet
state — is never invoked; and in every run whatsoever, receive_tx is
invoked only if verification succeeded. -/
theorem tx_receive_verify_before_mutation (c : ReceiveCalls) :
    (∀ e, c.openWallet = Except.ok () → c.readSlate = Except.ok () →
      c.verify = Except.error e →
      (tx_receive c).1 = Except.error e ∧ Ev.receiveTx ∉ (tx_receive c).2) ∧
    (Ev.receiveTx ∈ (tx_receive c).2 → c.verify = Except.ok ()) := by
  constructor
  · intro e h1 h2 h3
    simp [tx_receive, h1, h2, h3]
  · intro hmem
    rcases h1 : c.openWallet with e1 | u1
    · simp [tx_receive, h1] at hmem
    · rcases h2 : c.readSlate with e2 | u2
      · simp [tx_receive, h1, h2] at hmem
      · rcases h3 : c.verify with e3 | u3
        · simp [tx_receive, h1, h2, h3] at hmem
        · cases u3; rfl

/-- C5 witness: a run whose verification step reports InvalidSlate
returns InvalidSlate and never calls receive_tx. -/
theorem tx_receive_verify_before_mutation_witness :
    (tx_receive ⟨Except.ok (), Except.ok (), Except.error Err.invalidSlate,
        Except.ok ()⟩).1 = Except.error Err.invalidSlate ∧
    Ev.receiveTx ∉ (tx_receive ⟨Except.ok (), Except.ok (),
        Except.error Err.invalidSlate, Except.ok ()⟩).2 :=
  (tx_receive_verify_before_mutation
      ⟨Except.ok (), Except.ok (), Except.error Err.invalidSlate, Except.ok ()⟩).1
    Err.invalidSlate rfl rfl rfl

/-- Every tx_send trace is one of the seven stages of the call sequence
get_wallet, initiate_tx, send_tx_sync, tx_lock_outputs,
verify_slate_messages, finalize_tx, post_tx. -/
lemma tx_send_trace_cases (c : SendCalls) :
    (tx_send c).2 = [.getWallet] ∨
    (tx_send c).2 = [.getWallet, .initiateTx] ∨
    (tx_send c).2 = [.getWallet, .initiateTx, .sendTxSync] ∨
    (tx_send c).2 = [.getWallet, .initiateTx, .sendTxSync, .lockOutputs] ∨
    (tx_send c).2 = [.getWallet, .initiateTx, .sendTxSync, .lockOutputs, .verifySlate] ∨
    (tx_send c).2
      = [.getWallet, .initiateTx, .sendTxSync, .lockOutputs, .verifySlate, .finalizeTx] ∨
    (tx_send c).2
      = [.getWallet, .initiateTx, .sendTxSync, .lockOutputs, .verifySlate, .finalizeTx,
         .postTx] := by
  obtain ⟨o, i, s, l, v, f, p⟩ := c
  cases o <;> cases i <;> cases s <;> cases l <;> cases v <;> cases f <;> cases p <;>
    simp [tx_send]

/-- In every run of tx_send, whenever tx_lock_outputs is called the
network exchange send_tx_sync has already happened, and whenever post_tx
is called tx_lock_outputs has already happened. -/
lemma tx_send_trace_order (c : SendCalls) :
    (Ev.lockOutputs ∈ (tx_send c).2 →
      idxIn Ev.sendTxSync (tx_send c).2 < idxIn Ev.lockOutputs (tx_send c).2) ∧
    (Ev.postTx ∈ (tx_send c).2 →
      idxIn Ev.lockOutputs (tx_send c).2 < idxIn Ev.postTx (tx_send c).2) := by
  rcases tx_send_trace_cases c with h | h | h | h | h | h | h <;> rw [h] <;> decide

/-- In every successful run of tx_create the outputs were locked before
the slate was returned. -/
lemma tx_create_locks (c : CreateCalls) :
    (tx_create c).1 = Except.ok () → Ev.lockOutputs ∈ (tx_create c).2 := by
  obtain ⟨o, i, l⟩ := c
  cases o <;> cases i <;> cases l <;> simp [tx_create]

/-- C1 counterexample: in the all-successful run of tx_send both the
network exchange and the lock happen, and the exchange (send_tx_sync)
strictly precedes the lock (tx_lock_outputs) in the call order — the
sender-side round trip does not lock the selected outputs before the
network exchange with the destination. -/
theorem tx_send_locks_after_exchange_cx :
    Ev.sendTxSync ∈ (tx_send ⟨Except.ok (), Except.ok (), Except.ok (), Except.ok (),
        Except.ok (), Except.ok (), Except.ok ()⟩).2 ∧
    Ev.lockOutputs ∈ (tx_send ⟨Except.ok (), Except.ok (), Except.ok (), Except.ok (),
        Except.ok (), Except.ok (), Except.ok ()⟩).2 ∧
    idxIn Ev.sendTxSync (tx_send ⟨Except.ok (), Except.ok (), Except.ok (), Except.ok (),
        Except.ok (), Except.ok (), Except.ok ()⟩).2
      < idxIn Ev.lockOutputs (tx_send ⟨Except.ok (), Except.ok (), Except.ok (),
        Except.ok (), Except.ok (), Except.ok (), Except.ok ()⟩).2 := by
  decide

/-- C1 amended: tx_create locks the selected outputs before returning the
slate (so before any exchange by its caller), while tx_send locks them
only after the network exchange with the destination — and always before
posting the transaction. -/
theorem tx_send_lock_order (c : SendCalls) (c2 : CreateCalls) :
    (Ev.lockOutputs ∈ (tx_send c).2 →
      idxIn Ev.sendTxSync (tx_send c).2 < idxIn Ev.lockOutputs (tx_send c).2) ∧
    (Ev.postTx ∈ (tx_send c).2 →
      idxIn Ev.lockOutputs (tx_send c).2 < idxIn Ev.postTx (tx_send c).2) ∧
    ((tx_create c2).1 = Except.ok () → Ev.lockOutputs ∈ (tx_create c2).2) :=
  ⟨(tx_send_trace_order c).1, (tx_send_trace_order c).2, tx_create_locks c2⟩

/-- C1 amended witness: in the all-successful runs, tx_send's exchange
precedes its lock, its lock precedes its post, and tx_create locked
before returning. -/
theorem tx_send_lock_order_witness :
    idxIn Ev.sendTxSync (tx_send ⟨Except.ok (), Except.ok (), Except.ok (), Except.ok (),
        Except.ok (), Except.ok (), Except.ok ()⟩).2
      < idxIn Ev.lockOutputs (tx_send ⟨Except.ok (), Except.ok (), Except.ok (),
        Except.ok (), Except.ok (), Except.ok (), Except.ok ()⟩).2 ∧
    idxIn Ev.lockOutputs (tx_send ⟨Except.ok (), Except.ok (), Except.ok (), Except.ok (),
        Except.ok (), Except.ok (), Except.ok ()⟩).2
      < idxIn Ev.postTx (tx_send ⟨Except.ok (), Except.ok (), Except.ok (), Except.ok (),
        Except.ok (), Except.ok (), Except.ok ()⟩).2 ∧
    Ev.lockOutputs ∈ (tx_create ⟨Except.ok (), Except.ok (), Except.ok ()⟩).2 :=
  ⟨(tx_send_lock_order ⟨Except.ok (), Except.ok (), Except.ok (), Except.ok (),
      Except.ok (), Except.ok (), Except.ok ()⟩ ⟨Except.ok (), Except.ok (),
      Except.ok ()⟩).1 (by decide),
   (tx_send_lock_order ⟨Except.ok (), Except.ok (), Except.ok (), Except.ok (),
      Except.ok (), Except.ok (), Except.ok ()⟩ ⟨Except.ok (), Except.ok (),
      Except.ok ()⟩).2.1 (by decide),
   (tx_send_lock_order ⟨Except.ok (), Except.ok (), Except.ok (), Except.ok (),
      Except.ok (), Except.ok (), Except.ok ()⟩ ⟨Except.ok (), Except.ok (),
      Except.ok ()⟩).2.2 rfl⟩

/-- Marking the matching entries of a log cancelled commutes with looking
the id up: the lookup finds the cancelled version of whatever it found
before. -/
lemma find_cancel_map (l : List TxLogEntry) (i : Nat) :
    (l.map (fun e2 => if e2.id == i then cancelEntry e2 else e2)).find?
        (fun e => e.id == i)
      = (l.find? (fun e => e.id == i)).map cancelEntry := by
  induction l with
  | nil => rfl
  | cons a l ih =>
    simp only [List.map_cons]
    cases h : (a.id == i)
    · rw [if_neg (by simp [h]), List.find?_cons_of_neg _ (by simp [h]),
        List.find?_cons_of_neg _ (by simp [h]), ih]
    · rw [if_pos (by simp [h]), List.find?_cons_of_pos _ (by simp [cancelEntry, h]),
        List.find?_cons_of_pos _ (by simp [h])]
      rfl

/-- C7: cancel is idempotent. Cancelling an entry that is already in the
Cancelled state returns success with the state unchanged rather than an
error, and consequently whenever tx_cancel succeeds, running tx_cancel
again on the resulting state returns the same result and the same
state. -/
theorem tx_cancel_idempotent (o : Except Err Unit) (st st' : WState) (i : Nat)
    (ho : o = Except.ok ()) :
    (∀ e, st.txs.find? (fun x => x.id == i) = some e → e.confirmed = false →
      e.cancelled = true → tx_cancel o st i = Except.ok ("", st)) ∧
    (∀ s, tx_cancel o st i = Except.ok (s, st') →
      tx_cancel o st' i = Except.ok (s, st')) := by
  subst ho
  constructor
  · intro e hf hc hk
    simp [tx_cancel, cancel_tx, hf, hc, hk]
  · intro s h
    rcases hf : st.txs.find? (fun x => x.id == i) with _ | e
    · simp [tx_cancel, cancel_tx, hf] at h
    · cases hc : e.confirmed with
      | true => simp [tx_cancel, cancel_tx, hf, hc] at h
      | false =>
        cases hk : e.cancelled with
        | true =>
          simp only [tx_cancel, cancel_tx, hf, hc, hk, Bool.false_eq_true, if_false,
            if_true, Except.ok.injEq, Prod.mk.injEq] at h
          obtain ⟨hs, hst⟩ := h
          subst hs
          subst hst
          simp [tx_cancel, cancel_tx, hf, hc, hk]
        | false =>
          simp only [tx_cancel, cancel_tx, hf, hc, hk, Bool.false_eq_true, if_false,
            Except.ok.injEq, Prod.mk.injEq] at h
          obtain ⟨hs, hst⟩ := h
          subst hs
          subst hst
          have hfind : (st.txs.map
                (fun e2 => if e2.id == i then cancelEntry e2 else e2)).find?
              (fun x => x.id == i) = some (cancelEntry e) := by
            rw [find_cancel_map, hf]
            rfl
          simp only [tx_cancel, cancel_tx, hfind]
          have hc2 : (cancelEntry e).confirmed = false := hc
          have hk2 : (cancelEntry e).cancelled = true := rfl
          simp [hc2, hk2]

/-- C7 witness: cancelling a wallet whose single entry is already
Cancelled is a success that leaves the state unchanged, and after a real
cancellation (entry 1 pending, output 7 Locked) a second cancel returns
the very same result and state. -/
theorem tx_cancel_idempotent_witness :
    tx_cancel (Except.ok ()) (WState.mk [TxLogEntry.mk 1 false true [7]]
        [OutputData.mk 7 OutputStatus.locked]) 1
      = Except.ok ("", WState.mk [TxLogEntry.mk 1 false true [7]]
        [OutputData.mk 7 OutputStatus.locked]) ∧
    tx_cancel (Except.ok ()) (WState.mk [TxLogEntry.mk 1 false true [7]]
        [OutputData.mk 7 OutputStatus.unspent]) 1
      = Except.ok ("", WState.mk [TxLogEntry.mk 1 false true [7]]
        [OutputData.mk 7 OutputStatus.unspent]) :=
  ⟨(tx_cancel_idempotent (Except.ok ()) (WState.mk [TxLogEntry.mk 1 false true [7]]
        [OutputData.mk 7 OutputStatus.locked])
      (WState.mk [TxLogEntry.mk 1 false true [7]] [OutputData.mk 7 OutputStatus.locked]) 1
      rfl).1
    (TxLogEntry.mk 1 false true [7]) rfl rfl rfl,
   (tx_cancel_idempotent (Except.ok ()) (WState.mk [TxLogEntry.mk 1 false false [7]]
        [OutputData.mk 7 OutputStatus.locked])
      (WState.mk [TxLogEntry.mk 1 false true [7]] [OutputData.mk 7 OutputStatus.unspent]) 1
      rfl).2
    "" rfl⟩

end GrinWallet
